import Mathlib

/-!
Verification development for the multi-provider LLM client and streaming
normalization layer of the Obsidian vault AI chat plugin.

Strings from the TypeScript source are modelled as lists of characters
(`Str`), so that the character-level buffer/split/trim operations of the
stream parsers can be reasoned about by structural induction.  JavaScript
strings are UTF-16; none of the modelled operations are sensitive to the
difference at the code points exercised here.
-/

abbrev Str := List Char

/-- JavaScript whitespace characters recognised by the modelled subset of
JS trimming (space, tab, newline, carriage return, vertical tab, form feed). -/
def isJsWs (c : Char) : Bool :=
  c = ' ' || c = '\t' || c = '\n' || c = '\r' || c = Char.ofNat 11 || c = Char.ofNat 12

/-- Model of the JavaScript string method trim. -/
def trimStr (s : Str) : Str :=
  ((s.dropWhile isJsWs).reverse.dropWhile isJsWs).reverse

/-- Model of the JS regex replace removing one or more trailing slash
characters (the source pattern matching slashes anchored at the end). -/
def dropTrailingSlashes (s : Str) : Str :=
  (s.reverse.dropWhile (fun c => c = '/')).reverse

/-- Splits an accumulated buffer at newline characters, exactly as the
stream parsers do: the JS sequence is split on the newline character and the
final element is popped back into the buffer.  Returns the complete lines
and the retained remainder. -/
def splitBuf : Str → List Str × Str
  | [] => ([], [])
  | c :: cs =>
    let r := splitBuf cs
    if c = '\n' then ([] :: r.1, r.2)
    else
      match r.1 with
      | [] => ([], c :: r.2)
      | l :: t => ((c :: l) :: t, r.2)

/-- Index of the first occurrence of a substring, if any. -/
def firstIndexOfSub (pat : Str) : Str → Option Nat
  | [] => if pat = [] then some 0 else none
  | c :: cs =>
    if pat.isPrefixOf (c :: cs) then some 0
    else (firstIndexOfSub pat cs).map (· + 1)

/-- Index of the last occurrence of a substring, if any. -/
def lastIndexOfSub (pat : Str) : Str → Option Nat
  | [] => if pat = [] then some 0 else none
  | c :: cs =>
    match lastIndexOfSub pat cs with
    | some i => some (i + 1)
    | none => if pat.isPrefixOf (c :: cs) then some 0 else none

/-- Model of the JS regex replace that deletes from the first occurrence of
`pat` through the end of the string (the source pattern: the literal
delimiter followed by any characters, anchored at the end). -/
def takeBeforeFirst (pat s : Str) : Str :=
  match firstIndexOfSub pat s with
  | some i => s.take i
  | none => s

/-- Model of the JS regex replace that deletes from the start of the string
through the last occurrence of `pat` (greedy any-characters followed by the
literal delimiter, anchored at the start). -/
def dropThroughLast (pat s : Str) : Str :=
  match lastIndexOfSub pat s with
  | some i => s.drop (i + pat.length)
  | none => s

/-- Model of the JS string method includes: substring containment. -/
def isSubstring (pat s : Str) : Bool := (firstIndexOfSub pat s).isSome

/- ===== JSON values and a model of the JS builtin JSON.parse =====

`JSON.parse` is a host-language builtin, not repository code; it is modelled
here by a recursive-descent parser over the JSON grammar.  The modelled
subset: objects, arrays, strings with escapes, integers (a fractional part
or exponent is consumed but its value contribution is not retained — no
payload considered in the claims carries non-integer numbers), booleans and
null.  Trailing non-whitespace input is rejected, as the builtin does. -/

inductive Json where
  | null
  | bool (b : Bool)
  | num (n : Int)
  | str (s : Str)
  | arr (elems : List Json)
  | obj (fields : List (Str × Json))

def skipWs (s : Str) : Str := s.dropWhile isJsWs

def hexDigit (c : Char) : Option Nat :=
  if '0' ≤ c ∧ c ≤ '9' then some (c.toNat - 48)
  else if 'a' ≤ c ∧ c ≤ 'f' then some (c.toNat - 87)
  else if 'A' ≤ c ∧ c ≤ 'F' then some (c.toNat - 55)
  else none

def escChar (e : Char) : Option Char :=
  if e = '"' then some '"'
  else if e = '\\' then some '\\'
  else if e = '/' then some '/'
  else if e = 'n' then some '\n'
  else if e = 't' then some '\t'
  else if e = 'r' then some '\r'
  else if e = 'b' then some (Char.ofNat 8)
  else if e = 'f' then some (Char.ofNat 12)
  else none

def digitsToNat (s : Str) : Nat :=
  s.foldl (fun acc c => acc * 10 + (c.toNat - 48)) 0

/-- Consume an optional fraction part; the remainder is returned, the
fractional digits are not retained in the numeric value. -/
def pFrac : Str → Option Str
  | '.' :: t =>
    if (t.takeWhile Char.isDigit) = [] then none
    else some (t.dropWhile Char.isDigit)
  | s => some s

/-- Consume an optional exponent part. -/
def pExp : Str → Option Str
  | [] => some []
  | c :: t =>
    if c = 'e' ∨ c = 'E' then
      let t2 := match t with
                | s :: u => if s = '+' ∨ s = '-' then u else s :: u
                | [] => []
      if (t2.takeWhile Char.isDigit) = [] then none
      else some (t2.dropWhile Char.isDigit)
    else some (c :: t)

def pNumCore (s : Str) : Option (Nat × Str) :=
  let ds := s.takeWhile Char.isDigit
  let r0 := s.dropWhile Char.isDigit
  if ds = [] then none
  else
    match pFrac r0 with
    | none => none
    | some r1 =>
      match pExp r1 with
      | none => none
      | some r2 => some (digitsToNat ds, r2)

def pNum (s : Str) : Option (Json × Str) :=
  match s with
  | '-' :: t =>
    match pNumCore t with
    | some (n, r) => some (Json.num (-(Int.ofNat n)), r)
    | none => none
  | _ =>
    match pNumCore s with
    | some (n, r) => some (Json.num (Int.ofNat n), r)
    | none => none

mutual

def pValue : Nat → Str → Option (Json × Str)
  | 0, _ => none
  | Nat.succ n, s0 =>
    match skipWs s0 with
    | [] => none
    | c :: cs =>
      if c = '"' then
        match pStr n cs with
        | some (s1, rest) => some (Json.str s1, rest)
        | none => none
      else if c = '\x7b' then
        match skipWs cs with
        | '\x7d' :: rest => some (Json.obj [], rest)
        | _ =>
          match pFields n cs with
          | some (fs, rest) => some (Json.obj fs, rest)
          | none => none
      else if c = '[' then
        match skipWs cs with
        | ']' :: rest => some (Json.arr [], rest)
        | _ =>
          match pElems n cs with
          | some (xs, rest) => some (Json.arr xs, rest)
          | none => none
      else if c = 't' then
        if ("rue").data.isPrefixOf cs then some (Json.bool true, cs.drop 3) else none
      else if c = 'f' then
        if ("alse").data.isPrefixOf cs then some (Json.bool false, cs.drop 4) else none
      else if c = 'n' then
        if ("ull").data.isPrefixOf cs then some (Json.null, cs.drop 3) else none
      else pNum (c :: cs)

def pStr : Nat → Str → Option (Str × Str)
  | 0, _ => none
  | Nat.succ n, s =>
    match s with
    | [] => none
    | c :: cs =>
      if c = '"' then some ([], cs)
      else if c = '\\' then
        match cs with
        | [] => none
        | e :: cs2 =>
          if e = 'u' then
            match cs2 with
            | a :: b :: c2 :: d :: cs3 =>
              match hexDigit a, hexDigit b, hexDigit c2, hexDigit d with
              | some ha, some hb, some hc, some hd =>
                match pStr n cs3 with
                | some (t, r) =>
                  some (Char.ofNat (((ha * 16 + hb) * 16 + hc) * 16 + hd) :: t, r)
                | none => none
              | _, _, _, _ => none
            | _ => none
          else
            match escChar e with
            | some ch =>
              match pStr n cs2 with
              | some (t, r) => some (ch :: t, r)
              | none => none
            | none => none
      else
        match pStr n cs with
        | some (t, r) => some (c :: t, r)
        | none => none

def pElems : Nat → Str → Option (List Json × Str)
  | 0, _ => none
  | Nat.succ n, s =>
    match pValue n s with
    | none => none
    | some (v, rest) =>
      match skipWs rest with
      | ',' :: rest2 =>
        match pElems n rest2 with
        | some (vs, rest3) => some (v :: vs, rest3)
        | none => none
      | ']' :: rest2 => some ([v], rest2)
      | _ => none

def pFields : Nat → Str → Option (List (Str × Json) × Str)
  | 0, _ => none
  | Nat.succ n, s =>
    match skipWs s with
    | '"' :: cs =>
      match pStr n cs with
      | none => none
      | some (k, rest) =>
        match skipWs rest with
        | ':' :: rest2 =>
          match pValue n rest2 with
          | none => none
          | some (v, rest3) =>
            match skipWs rest3 with
            | ',' :: rest4 =>
              match pFields n rest4 with
              | some (fs, rest5) => some ((k, v) :: fs, rest5)
              | none => none
            | '\x7d' :: rest4 => some ([(k, v)], rest4)
            | _ => none
        | _ => none
    | _ => none

end

/-- Model of JSON.parse: parses a full JSON document, rejecting trailing
garbage; returns none where the builtin would throw a SyntaxError. -/
def jsonParse (s : Str) : Option Json :=
  match pValue (2 * s.length + 2) s with
  | some (j, rest) => if skipWs rest = [] then some j else none
  | none => none

/- ===== JSON value accessors modelling JS property access =====

These model the optional-chaining accesses the adapters perform on parsed
payloads.  Property access on a non-object and indexing a non-array yield
none (undefined); JSON.parse keeps the last of duplicate object keys. -/

def lookupLast : List (Str × Json) → Str → Option Json
  | [], _ => none
  | (k2, v) :: rest, k =>
    match lookupLast rest k with
    | some r => some r
    | none => if k2 = k then some v else none

def jGet : Json → Str → Option Json
  | .obj fs, k => lookupLast fs k
  | _, _ => none

def jIdx : Json → Nat → Option Json
  | .arr xs, i => xs[i]?
  | _, _ => none

/-- Optional-chained property access. -/
def oGet (o : Option Json) (k : Str) : Option Json := o.bind (jGet · k)

/-- Optional-chained index access. -/
def oIdx (o : Option Json) (i : Nat) : Option Json := o.bind (jIdx · i)

/-- Model of the JS idiom value-or-empty-string applied to an extracted
payload field (the source writes the field access followed by an
or-else with the empty string).  The modelled wire shapes only ever carry
strings in these positions; any non-string value is mapped to the empty
string here. -/
def jStrOrEmpty : Option Json → Str
  | some (.str s) => s
  | _ => []

/-- JS truthiness of a JSON value. -/
def jsTruthy : Json → Bool
  | .null => false
  | .bool b => b
  | .num n => n ≠ 0
  | .str s => s ≠ []
  | .arr _ => true
  | .obj _ => true

/-- JS truthiness where none stands for undefined. -/
def jsTruthyOpt : Option Json → Bool
  | none => false
  | some j => jsTruthy j

/-- Model of the JS pattern selecting a string field when it is a non-empty
string and a fallback otherwise (the or-else chaining on possibly missing
message fields). -/
def strFieldOr (o : Option Json) (fb : Str) : Str :=
  match o with
  | some (.str s) => if s = [] then fb else s
  | _ => fb

/-- Model of the JS or-else on two strings: the first if non-empty, else the
second. -/
def jsOrStr (a b : Str) : Str := if a = [] then b else a

def joinSep (sep : Str) : List Str → Str
  | [] => []
  | [x] => x
  | x :: xs => x ++ sep ++ joinSep sep xs

mutual

def jsonSize : Json → Nat
  | .null => 1
  | .bool _ => 1
  | .num _ => 1
  | .str _ => 1
  | .arr xs => jsonListSize xs + 1
  | .obj fs => jsonFieldsSize fs + 1

def jsonListSize : List Json → Nat
  | [] => 0
  | x :: xs => jsonSize x + jsonListSize xs + 1

def jsonFieldsSize : List (Str × Json) → Nat
  | [] => 0
  | kv :: fs => jsonSize kv.2 + jsonFieldsSize fs + 1

end

/-- Model of JS string interpolation of a JSON value (template literal).
Arrays display as comma-joined elements, objects as the standard object
placeholder text. -/
def jsDisplayF : Nat → Json → Str
  | _, .str s => s
  | _, .bool true => ("true").data
  | _, .bool false => ("false").data
  | _, .num i => (toString i).data
  | _, .null => ("null").data
  | _, .obj _ => ("[object Object]").data
  | 0, .arr _ => []
  | Nat.succ n, .arr xs => joinSep [','] (xs.map (jsDisplayF n))

def jsDisplay (j : Json) : Str := jsDisplayF (jsonSize j) j

def escapeJsonStr (s : Str) : Str :=
  s.foldr (fun c acc =>
    if c = '"' then '\\' :: '"' :: acc
    else if c = '\\' then '\\' :: '\\' :: acc
    else if c = '\n' then '\\' :: 'n' :: acc
    else if c = '\t' then '\\' :: 't' :: acc
    else if c = '\r' then '\\' :: 'r' :: acc
    else c :: acc) []

/-- Model of the JS builtin JSON.stringify (used by the source only to build
error messages from an error envelope). -/
def jStringifyF : Nat → Json → Str
  | 0, _ => []
  | Nat.succ n, j =>
    match j with
    | .null => ("null").data
    | .bool true => ("true").data
    | .bool false => ("false").data
    | .num i => (toString i).data
    | .str s => '"' :: (escapeJsonStr s ++ ['"'])
    | .arr xs => '[' :: (joinSep [','] (xs.map (jStringifyF n)) ++ [']'])
    | .obj fs =>
      '\x7b' :: (joinSep [','] (fs.map (fun kv =>
        '"' :: (escapeJsonStr kv.1 ++ ['"', ':'] ++ jStringifyF n kv.2))) ++ ['\x7d'])

def jStringify (j : Json) : Str := jStringifyF (jsonSize j) j

/- ===== Uniform token-delta contract and the shared stream-reading loop =====

Each provider's stream parser follows the same skeleton: read chunks,
accumulate a line buffer, split off complete lines, process each line, and
after the underlying reader reports completion emit one final terminal
delta.  Recognising an in-stream terminal signal emits the terminal delta
and returns immediately, abandoning any lines still buffered.  The byte
stream is modelled as the list of decoded text chunks the reader yields. -/

structure TokenDelta where
  content : Str
  done : Bool
deriving DecidableEq

/-- Result of processing one complete line: either the stream terminated
(the generator returned after yielding the given deltas), or processing
continues with the given per-parser state. -/
inductive StepRes (σ : Type) where
  | term (ds : List TokenDelta)
  | cont (ds : List TokenDelta) (st : σ)

/-- Result of processing the list of complete lines extracted from one
chunk. -/
inductive LinesRes (σ : Type) where
  | stopped (ds : List TokenDelta)
  | flowing (ds : List TokenDelta) (st : σ)

def processLines (step : σ → Str → StepRes σ) : σ → List Str → LinesRes σ
  | st, [] => .flowing [] st
  | st, l :: ls =>
    match step st l with
    | .term ds => .stopped ds
    | .cont ds st2 =>
      match processLines step st2 ls with
      | .stopped ds2 => .stopped (ds ++ ds2)
      | .flowing ds2 st3 => .flowing (ds ++ ds2) st3

/-- The shared chunk loop: append the chunk to the buffer, split into
complete lines plus remainder, process the lines; when the reader is
exhausted, fall out of the loop and emit the single trailing terminal
delta. -/
def runChunks (step : σ → Str → StepRes σ) : σ → Str → List Str → List TokenDelta
  | _, _, [] => [⟨[], true⟩]
  | st, buf, c :: cs =>
    match processLines step st (splitBuf (buf ++ c)).1 with
    | .stopped ds => ds
    | .flowing ds st2 => ds ++ runChunks step st2 (splitBuf (buf ++ c)).2 cs

/- ===== OpenRouter provider (hosted aggregator) ===== -/

namespace OpenRouterProvider

/-- One line of the OpenRouter SSE framing: lines with the SSE data marker
are unwrapped; the DONE sentinel yields the terminal delta and returns;
other payloads are parsed as JSON and the delta content extracted, empty
or missing content being skipped; non-data lines and malformed JSON are
ignored. -/
def lineStep (_ : Unit) (line : Str) : StepRes Unit :=
  if ("data: ").data.isPrefixOf line then
    let data := line.drop 6
    if data = ("[DONE]").data then .term [⟨[], true⟩]
    else
      match jsonParse data with
      | some parsed =>
        let delta := jStrOrEmpty (oGet (oGet (oIdx (jGet parsed ("choices").data) 0)
          ("delta").data) ("content").data)
        if delta ≠ [] then .cont [⟨delta, false⟩] () else .cont [] ()
      | none => .cont [] ()
  else .cont [] ()

def parseSSEStream (chunks : List Str) : List TokenDelta :=
  runChunks lineStep () [] chunks

end OpenRouterProvider

/- ===== OpenAI-compatible provider (generic) ===== -/

namespace OpenAICompatibleProvider

/-- One line of the generic OpenAI-compatible SSE framing; identical to the
aggregator's except that the unwrapped payload is trimmed before the DONE
sentinel comparison, and only the content field is used (any
reasoning-content sibling is ignored). -/
def lineStep (_ : Unit) (line : Str) : StepRes Unit :=
  if ("data: ").data.isPrefixOf line then
    let data := trimStr (line.drop 6)
    if data = ("[DONE]").data then .term [⟨[], true⟩]
    else
      match jsonParse data with
      | some parsed =>
        let content := jStrOrEmpty (oGet (oGet (oIdx (jGet parsed ("choices").data) 0)
          ("delta").data) ("content").data)
        if content ≠ [] then .cont [⟨content, false⟩] () else .cont [] ()
      | none => .cont [] ()
  else .cont [] ()

def parseStream (chunks : List Str) : List TokenDelta :=
  runChunks lineStep () [] chunks

end OpenAICompatibleProvider

/- ===== MiniMax provider (reasoning-capable vendor) ===== -/

namespace MinimaxProvider

/-- One line of the MiniMax SSE framing, carrying the stateful
thinking-block suppression flag.  With suppression enabled, a delta whose
text contains the opening delimiter sets the flag and strips from the
delimiter to the end of the delta; while the flag is set, a delta containing
the closing delimiter clears it and strips through the last closing
delimiter; a delta processed while the flag is still set is skipped
entirely. -/
def lineStep (showThinking : Bool) (inThink : Bool) (line : Str) : StepRes Bool :=
  if ("data: ").data.isPrefixOf line then
    let data := trimStr (line.drop 6)
    if data = ("[DONE]").data then .term [⟨[], true⟩]
    else
      match jsonParse data with
      | some parsed =>
        let content := jStrOrEmpty (oGet (oGet (oIdx (jGet parsed ("choices").data) 0)
          ("delta").data) ("content").data)
        if showThinking then
          if content ≠ [] then .cont [⟨content, false⟩] inThink else .cont [] inThink
        else
          let p1 := if isSubstring ("<think>").data content then
              (takeBeforeFirst ("<think>").data content, true)
            else (content, inThink)
          let p2 := if p1.2 && isSubstring ("</think>").data p1.1 then
              (dropThroughLast ("</think>").data p1.1, false)
            else p1
          if p2.2 then .cont [] p2.2
          else if p2.1 ≠ [] then .cont [⟨p2.1, false⟩] p2.2
          else .cont [] p2.2
      | none => .cont [] inThink
  else .cont [] inThink

/-- The MiniMax stream parser; the suppression flag starts clear. -/
def parseMinimaxStream (showThinking : Bool) (chunks : List Str) : List TokenDelta :=
  runChunks (lineStep showThinking) false [] chunks

end MinimaxProvider

/- ===== Ollama provider (local daemon, newline-delimited JSON) ===== -/

namespace OllamaProvider

/-- One line of the Ollama framing: blank lines are skipped; each line is a
JSON object whose done flag is the terminal signal; non-terminal objects
yield their message content, or the empty string when absent, without any
non-empty guard. -/
def lineStep (_ : Unit) (line : Str) : StepRes Unit :=
  if trimStr line = [] then .cont [] ()
  else
    match jsonParse line with
    | some parsed =>
      if jsTruthyOpt (jGet parsed ("done").data) then .term [⟨[], true⟩]
      else .cont [⟨jStrOrEmpty (oGet (jGet parsed ("message").data) ("content").data),
        false⟩] ()
    | none => .cont [] ()

def parseOllamaStream (chunks : List Str) : List TokenDelta :=
  runChunks lineStep () [] chunks

end OllamaProvider

/- ===== Google AI provider (Gemini variant) ===== -/

namespace GoogleAIProvider

/-- One line of the Gemini alt-sse framing: data lines are parsed and the
candidate text extracted, empty text being skipped; there is no in-stream
terminal sentinel — the stream ends only by closure of the connection. -/
def lineStep (_ : Unit) (line : Str) : StepRes Unit :=
  if ("data: ").data.isPrefixOf line then
    match jsonParse (line.drop 6) with
    | some parsed =>
      let text := jStrOrEmpty (oGet (oIdx (oGet (oGet (oIdx (jGet parsed
        ("candidates").data) 0) ("content").data) ("parts").data) 0) ("text").data)
      if text ≠ [] then .cont [⟨text, false⟩] () else .cont [] ()
    | none => .cont [] ()
  else .cont [] ()

def parseGeminiStream (chunks : List Str) : List TokenDelta :=
  runChunks lineStep () [] chunks

end GoogleAIProvider

/- ===== Transport model =====

The streaming path uses the fetch API: the handshake result carries a
status, an optional body (the chunk stream) and the textual form of the
body used on error paths.  The blocking path uses the host's request
helper, which either resolves with a response (status, parsed JSON when the
body is JSON, raw text) or rejects with a JS error value; with the default
configuration the helper itself rejects on non-2xx statuses, while passing
the no-throw flag makes it resolve with the error status instead. -/

structure FetchResponse where
  status : Nat
  statusText : Str
  body : Option (List Str)
  textBody : Str

/-- Model of the fetch response ok flag: status in the 2xx range. -/
def FetchResponse.isOk (r : FetchResponse) : Bool :=
  200 ≤ r.status && r.status < 300

structure UrlResponse where
  status : Nat
  json : Option Json
  text : Str

/-- A thrown JS error value as the adapters inspect it: an optional HTTP
status, a message property, and its string conversion. -/
structure JsErr where
  status : Option Nat
  message : Str
  asString : Str

inductive ReqResult where
  | resolved (r : UrlResponse)
  | thrown (e : JsErr)

structure ValResult where
  valid : Bool
  error : Option Str
deriving DecidableEq

structure ChatResponse where
  text : Str
  usage : Option (Option Json × Option Json)

/- ===== OpenRouter provider: validate, chatStream handshake ===== -/

namespace OpenRouterProvider

/-- The try block of validate: a resolved models-endpoint response yields
validity exactly on status 200 (with no error field); a rejection
propagates. -/
def validateTry (o : ReqResult) : Except JsErr ValResult :=
  match o with
  | .resolved r => .ok ⟨r.status = 200, none⟩
  | .thrown e => .error e

/-- validate with its catch block: a propagated rejection is converted to an
invalid result whose error is the thrown message, or the error's string
conversion when the message is empty. -/
def validate (o : ReqResult) : Except JsErr ValResult :=
  match validateTry o with
  | .ok v => .ok v
  | .error e => .ok ⟨false, some (jsOrStr e.message e.asString)⟩

/-- The chatStream handshake: only a missing body is checked — the response
status is never consulted before the stream is returned. -/
def chatStream (r : FetchResponse) : Except Str (List TokenDelta) :=
  match r.body with
  | none => .error ("No response body for streaming").data
  | some b => .ok (parseSSEStream b)

end OpenRouterProvider

/- ===== MiniMax provider: validate, chatStream handshake ===== -/

namespace MinimaxProvider

/-- The try block of validate: a tiny completion request; validity exactly
on status 200. -/
def validateTry (o : ReqResult) : Except JsErr ValResult :=
  match o with
  | .resolved r => .ok ⟨r.status = 200, none⟩
  | .thrown e => .error e

/-- validate with its catch block: a rejection carrying status 401 yields
the invalid-API-key message, any other rejection its message or string
form. -/
def validate (o : ReqResult) : Except JsErr ValResult :=
  match validateTry o with
  | .ok v => .ok v
  | .error e =>
    if e.status = some 401 then .ok ⟨false, some ("Invalid API key").data⟩
    else .ok ⟨false, some (jsOrStr e.message e.asString)⟩

/-- The chatStream handshake: a non-2xx status raises before the body is
consulted; a missing body also raises; otherwise the parsed stream is
returned. -/
def chatStream (showThinking : Bool) (r : FetchResponse) :
    Except Str (List TokenDelta) :=
  if !r.isOk then
    .error (("MiniMax API error: ").data ++ (toString r.status).data ++ [' ']
      ++ r.statusText)
  else
    match r.body with
    | none => .error ("No response body for streaming").data
    | some b => .ok (parseMinimaxStream showThinking b)

end MinimaxProvider

/- ===== Ollama provider: validate, chatStream handshake ===== -/

namespace OllamaProvider

def validateTry (o : ReqResult) : Except JsErr ValResult :=
  match o with
  | .resolved r => .ok ⟨r.status = 200, none⟩
  | .thrown e => .error e

/-- validate with its catch block: any rejection yields the fixed
cannot-connect message naming the configured base URL. -/
def validate (baseUrl : Str) (o : ReqResult) : Except JsErr ValResult :=
  match validateTry o with
  | .ok v => .ok v
  | .error _ => .ok ⟨false, some (("Cannot connect to Ollama at ").data ++ baseUrl)⟩

/-- The chatStream handshake: only a missing body is checked — the response
status is never consulted before the stream is returned. -/
def chatStream (r : FetchResponse) : Except Str (List TokenDelta) :=
  match r.body with
  | none => .error ("No response body").data
  | some b => .ok (parseOllamaStream b)

end OllamaProvider

/- ===== OpenAI-compatible provider: constructor normalization, validate,
chat, chatStream handshake ===== -/

namespace OpenAICompatibleProvider

/-- The constructor's base-URL normalization: strip all trailing slashes;
then, unless the URL already contains the chat-completions path, append
the completions suffix when the URL ends in the v1 segment, append nothing
when it already ends in a completions segment, and append the full
v1-chat-completions path otherwise. -/
def normalizeBaseUrl (u : Str) : Str :=
  let s := dropTrailingSlashes u
  if !(isSubstring ("/chat/completions").data s) then
    if ("/v1").data.isSuffixOf s then s ++ ("/chat/completions").data
    else if !(("/completions").data.isSuffixOf s) then
      s ++ ("/v1/chat/completions").data
    else s
  else s

structure Config where
  baseUrl : Str
  apiKey : Str
  modelId : Str

/-- The constructor: stores the normalized base URL. -/
def construct (baseUrl apiKey modelId : Str) : Config :=
  ⟨normalizeBaseUrl baseUrl, apiKey, modelId⟩

/-- The URL every subsequent request of this adapter is issued against. -/
def requestTarget (c : Config) : Str := c.baseUrl

/-- The try block of validate (request issued with the no-throw flag): a
200 is valid; any other status extracts an error message from the JSON
body when possible, with the HTTP-status text as fallback; a transport
rejection propagates. -/
def validateTry (o : ReqResult) : Except JsErr ValResult :=
  match o with
  | .resolved r =>
    if r.status = 200 then .ok ⟨true, none⟩
    else
      let base := ("HTTP ").data ++ (toString r.status).data
      let errorMsg := match jsonParse r.text with
        | some j => strFieldOr (oGet (jGet j ("error").data) ("message").data)
            (strFieldOr (jGet j ("message").data) base)
        | none => base
      .ok ⟨false, some errorMsg⟩
  | .thrown e => .error e

/-- validate: the two configuration checks precede the network call and
return structured failures; the catch block converts a rejection to a
structured failure. -/
def validate (c : Config) (o : ReqResult) : Except JsErr ValResult :=
  if c.baseUrl = [] then .ok ⟨false, some ("Base URL is required").data⟩
  else if c.modelId = [] then .ok ⟨false, some ("Model ID is required").data⟩
  else
    match validateTry o with
    | .ok v => .ok v
    | .error e => .ok ⟨false, some (jsOrStr e.message e.asString)⟩

/-- The body handling of chat after the transport resolved (the blocking
request helper is used with its default configuration, which itself rejects
on non-2xx statuses before this code runs): an error envelope raises with
its message, or the stringified envelope when the message is empty or
missing; otherwise the first choice's message content — or the empty string
when absent — is returned as the response text, together with usage
counters when present. -/
def chat (data : Json) : Except Str ChatResponse :=
  if jsTruthyOpt (jGet data ("error").data) then
    .error (strFieldOr (oGet (jGet data ("error").data) ("message").data)
      (jStringify ((jGet data ("error").data).getD Json.null)))
  else
    .ok ⟨jStrOrEmpty (oGet (oGet (oIdx (jGet data ("choices").data) 0)
        ("message").data) ("content").data),
      match jGet data ("usage").data with
      | some u =>
        if jsTruthy u then
          some (jGet u ("prompt_tokens").data, jGet u ("completion_tokens").data)
        else none
      | none => none⟩

/-- The chatStream handshake: a non-2xx status raises with a message
extracted from the response text; a missing body raises; otherwise the
parsed stream is returned. -/
def chatStream (r : FetchResponse) : Except Str (List TokenDelta) :=
  if !r.isOk then
    let base := ("HTTP ").data ++ (toString r.status).data
    .error (match jsonParse r.textBody with
      | some j => strFieldOr (oGet (jGet j ("error").data) ("message").data) base
      | none => base)
  else
    match r.body with
    | none => .error ("No response body").data
    | some b => .ok (parseStream b)

end OpenAICompatibleProvider

/- ===== Google AI provider: validate, chat, chatStream handshake ===== -/

namespace GoogleAIProvider

/-- The try block of validate (models listing issued with the no-throw
flag): 200 is valid; 400 and 403 yield fixed messages; any other status
extracts the error message from the body with the HTTP-status text as
fallback; a transport rejection propagates. -/
def validateTry (o : ReqResult) : Except JsErr ValResult :=
  match o with
  | .resolved r =>
    if r.status = 200 then .ok ⟨true, none⟩
    else if r.status = 400 then .ok ⟨false, some ("Invalid API key format").data⟩
    else if r.status = 403 then
      .ok ⟨false, some ("API key not authorized. Make sure the Gemini API is enabled.").data⟩
    else
      .ok ⟨false, some (strFieldOr (oGet (oGet r.json ("error").data) ("message").data)
        (("HTTP ").data ++ (toString r.status).data))⟩
  | .thrown e => .error e

def validate (o : ReqResult) : Except JsErr ValResult :=
  match validateTry o with
  | .ok v => .ok v
  | .error e => .ok ⟨false, some (jsOrStr e.message e.asString)⟩

/-- The response handling of chat (request issued with the no-throw flag):
a non-200 status raises with the message extracted from the error envelope,
the raw body text, or the HTTP status; on 200, a safety-block indicator in
the prompt feedback raises the distinct blocked-content error before the
text is extracted; an empty text together with a finish reason raises;
otherwise the text (possibly empty, when no candidate and no finish reason
are present) is returned with usage counters when present.  The outer
try/catch of the source logs and rethrows, leaving the raised error
unchanged. -/
def chat (status : Nat) (data : Json) (respText : Str) : Except Str ChatResponse :=
  if status ≠ 200 then
    .error (("Google AI: ").data ++
      strFieldOr (oGet (jGet data ("error").data) ("message").data)
        (jsOrStr respText (("HTTP ").data ++ (toString status).data)))
  else if jsTruthyOpt (oGet (jGet data ("promptFeedback").data) ("blockReason").data) then
    .error (("Content blocked: ").data ++
      jsDisplay ((oGet (jGet data ("promptFeedback").data) ("blockReason").data).getD
        Json.null))
  else
    let text := jStrOrEmpty (oGet (oIdx (oGet (oGet (oIdx (jGet data
      ("candidates").data) 0) ("content").data) ("parts").data) 0) ("text").data)
    if text = [] ∧
        jsTruthyOpt (oGet (oIdx (jGet data ("candidates").data) 0)
          ("finishReason").data) then
      .error (("No response. Reason: ").data ++
        jsDisplay ((oGet (oIdx (jGet data ("candidates").data) 0)
          ("finishReason").data).getD Json.null))
    else
      .ok ⟨text,
        match jGet data ("usageMetadata").data with
        | some u =>
          if jsTruthy u then
            some (jGet u ("promptTokenCount").data, jGet u ("candidatesTokenCount").data)
          else none
        | none => none⟩

/-- The chatStream handshake: a non-2xx status raises with a message from
the response text; a missing body raises; otherwise the parsed stream is
returned. -/
def chatStream (r : FetchResponse) : Except Str (List TokenDelta) :=
  if !r.isOk then
    let base := ("HTTP ").data ++ (toString r.status).data
    .error (("Google AI: ").data ++ (match jsonParse r.textBody with
      | some j => strFieldOr (oGet (jGet j ("error").data) ("message").data) base
      | none => base))
  else
    match r.body with
    | none => .error ("No response body").data
    | some b => .ok (parseGeminiStream b)

end GoogleAIProvider

/- ===== Provider registry ===== -/

/-- A registered provider as the registry sees it: its stable identifier
and display name. -/
structure RegProvider where
  id : Str
  name : Str
deriving DecidableEq

/-- The registry's backing store, modelling a JS Map: insertion-ordered
key-value pairs with unique keys maintained by the set operation. -/
abbrev Registry := List (Str × RegProvider)

/-- JS Map set: replace in place when the key exists, append otherwise. -/
def mapSet : Registry → Str → RegProvider → Registry
  | [], k, v => [(k, v)]
  | (k2, v2) :: rest, k, v =>
    if k2 = k then (k2, v) :: rest else (k2, v2) :: mapSet rest k v

/-- JS Map get: the value for the key, or none (undefined) — never throws. -/
def mapGet : Registry → Str → Option RegProvider
  | [], _ => none
  | (k2, v) :: rest, k => if k2 = k then some v else mapGet rest k

namespace ProviderRegistry

/-- register inserts or replaces by the provider's identifier. -/
def register (m : Registry) (p : RegProvider) : Registry := mapSet m p.id p

/-- get resolves an identifier to its provider, or none. -/
def get (m : Registry) (id : Str) : Option RegProvider := mapGet m id

/-- list returns all registered providers. -/
def list (m : Registry) : List RegProvider := m.map (·.2)

/-- clear empties the registry. -/
def clear (_ : Registry) : Registry := []

end ProviderRegistry

/- ===== Generic properties of the shared stream loop ===== -/

/-- A line step is well behaved for emission predicate P when the terminal
case emits exactly the single terminal delta and every delta of a
continuing case is non-terminal and satisfies P. -/
def stepEmits (step : σ → Str → StepRes σ) (P : TokenDelta → Prop) : Prop :=
  ∀ st l,
    (∀ ds, step st l = .term ds → ds = [⟨[], true⟩]) ∧
    (∀ ds st2, step st l = .cont ds st2 → ∀ d ∈ ds, d.done = false ∧ P d)

theorem processLines_emits {σ} {step : σ → Str → StepRes σ} {P : TokenDelta → Prop}
    (h : stepEmits step P) :
    ∀ (ls : List Str) (st : σ),
      (match processLines step st ls with
        | .stopped ds => ∃ b, ds = b ++ [⟨[], true⟩] ∧ ∀ d ∈ b, d.done = false ∧ P d
        | .flowing ds _ => ∀ d ∈ ds, d.done = false ∧ P d) := by
  intro ls
  induction ls with
  | nil =>
    intro st
    simp [processLines]
  | cons l ls ih =>
    intro st
    simp only [processLines]
    cases hs : step st l with
    | term ds =>
      have hl := (h st l).1 ds hs
      dsimp only
      exact ⟨[], by simpa using hl, by simp⟩
    | cont ds st2 =>
      have hl := (h st l).2 ds st2 hs
      have ih2 := ih st2
      cases hp : processLines step st2 ls with
      | stopped ds2 =>
        rw [hp] at ih2
        dsimp only
        rw [hp]
        dsimp only
        obtain ⟨b, hb, hball⟩ := ih2
        refine ⟨ds ++ b, by simp [hb], ?_⟩
        intro d hd
        rcases List.mem_append.1 hd with h1 | h2
        · exact hl d h1
        · exact hball d h2
      | flowing ds2 st3 =>
        rw [hp] at ih2
        dsimp only
        rw [hp]
        dsimp only
        intro d hd
        rcases List.mem_append.1 hd with h1 | h2
        · exact hl d h1
        · exact ih2 d h2

theorem runChunks_emits {σ} {step : σ → Str → StepRes σ} {P : TokenDelta → Prop}
    (h : stepEmits step P) :
    ∀ (cs : List Str) (st : σ) (buf : Str),
      ∃ b, runChunks step st buf cs = b ++ [⟨[], true⟩] ∧
        ∀ d ∈ b, d.done = false ∧ P d := by
  intro cs
  induction cs with
  | nil =>
    intro st buf
    exact ⟨[], rfl, by simp⟩
  | cons c cs ih =>
    intro st buf
    simp only [runChunks]
    have hpl := processLines_emits h (splitBuf (buf ++ c)).1 st
    cases hp : processLines step st (splitBuf (buf ++ c)).1 with
    | stopped ds =>
      rw [hp] at hpl
      dsimp only
      simpa using hpl
    | flowing ds st2 =>
      rw [hp] at hpl
      dsimp only
      obtain ⟨b, hb, hball⟩ := ih st2 (splitBuf (buf ++ c)).2
      refine ⟨ds ++ b, by simp [hb], ?_⟩
      intro d hd
      rcases List.mem_append.1 hd with h1 | h2
      · exact hpl d h1
      · exact hball d h2

/-- The produced delta sequence ends with the unique terminal delta: some
prefix of non-terminal deltas followed by exactly one delta with the done
flag set, as its last element. -/
def terminalOk (out : List TokenDelta) : Prop :=
  ∃ b, out = b ++ [⟨[], true⟩] ∧ ∀ d ∈ b, d.done = false

theorem orStep_clean :
    stepEmits OpenRouterProvider.lineStep (fun d => d.content ≠ []) := by
  intro st l
  constructor
  · intro ds h
    simp only [OpenRouterProvider.lineStep] at h
    repeat' split at h
    all_goals cases h
    all_goals simp_all
  · intro ds st2 h
    simp only [OpenRouterProvider.lineStep] at h
    repeat' split at h
    all_goals cases h
    all_goals simp_all

theorem ocStep_clean :
    stepEmits OpenAICompatibleProvider.lineStep (fun d => d.content ≠ []) := by
  intro st l
  constructor
  · intro ds h
    simp only [OpenAICompatibleProvider.lineStep] at h
    repeat' split at h
    all_goals cases h
    all_goals simp_all
  · intro ds st2 h
    simp only [OpenAICompatibleProvider.lineStep] at h
    repeat' split at h
    all_goals cases h
    all_goals simp_all

set_option maxHeartbeats 1000000 in
theorem mmStep_clean (showThinking : Bool) :
    stepEmits (MinimaxProvider.lineStep showThinking) (fun d => d.content ≠ []) := by
  intro st l
  constructor
  · intro ds h
    simp only [MinimaxProvider.lineStep] at h
    repeat' split at h
    all_goals cases h
    all_goals simp_all
  · intro ds st2 h
    simp only [MinimaxProvider.lineStep] at h
    repeat' split at h
    all_goals cases h
    all_goals simp_all

theorem geminiStep_clean :
    stepEmits GoogleAIProvider.lineStep (fun d => d.content ≠ []) := by
  intro st l
  constructor
  · intro ds h
    simp only [GoogleAIProvider.lineStep] at h
    repeat' split at h
    all_goals cases h
    all_goals simp_all
  · intro ds st2 h
    simp only [GoogleAIProvider.lineStep] at h
    repeat' split at h
    all_goals cases h
    all_goals simp_all

theorem ollamaStep_wf :
    stepEmits OllamaProvider.lineStep (fun _ => True) := by
  intro st l
  constructor
  · intro ds h
    simp only [OllamaProvider.lineStep] at h
    repeat' split at h
    all_goals cases h
    all_goals simp_all
  · intro ds st2 h
    simp only [OllamaProvider.lineStep] at h
    repeat' split at h
    all_goals cases h
    all_goals simp_all

/-- Every delta a stream parser emits before its terminal delta has
non-empty content, when the parser's line step only continues with
non-empty, non-terminal deltas. -/
theorem nonterminal_content {σ} {step : σ → Str → StepRes σ}
    (h : stepEmits step (fun d => d.content ≠ [])) (cs : List Str) (st : σ) :
    ∀ d ∈ runChunks step st [] cs, d.done = false → d.content ≠ [] := by
  intro d hd hdone
  obtain ⟨b, hb, hball⟩ := runChunks_emits h cs st []
  rw [hb] at hd
  rcases List.mem_append.1 hd with h1 | h2
  · exact (hball d h1).2
  · simp only [List.mem_singleton] at h2
    rw [h2] at hdone
    simp at hdone

/-- C2: for every input byte stream, each stream parser (the two SSE
framings, the MiniMax SSE framing, the newline-delimited Ollama framing and
the Gemini variant) emits exactly one delta with the done flag set, that
terminal delta is the last element of the produced sequence, and no further
deltas are produced after the terminal signal is recognised even if more
complete lines remain buffered. -/
theorem claim_C2 :
    (∀ chunks, terminalOk (OpenRouterProvider.parseSSEStream chunks)) ∧
    (∀ chunks, terminalOk (OpenAICompatibleProvider.parseStream chunks)) ∧
    (∀ showThinking chunks,
      terminalOk (MinimaxProvider.parseMinimaxStream showThinking chunks)) ∧
    (∀ chunks, terminalOk (OllamaProvider.parseOllamaStream chunks)) ∧
    (∀ chunks, terminalOk (GoogleAIProvider.parseGeminiStream chunks)) := by
  refine ⟨?_, ?_, ?_, ?_, ?_⟩
  · intro chunks
    obtain ⟨b, hb, hball⟩ := runChunks_emits orStep_clean chunks () []
    exact ⟨b, hb, fun d hd => (hball d hd).1⟩
  · intro chunks
    obtain ⟨b, hb, hball⟩ := runChunks_emits ocStep_clean chunks () []
    exact ⟨b, hb, fun d hd => (hball d hd).1⟩
  · intro showThinking chunks
    obtain ⟨b, hb, hball⟩ := runChunks_emits (mmStep_clean showThinking) chunks false []
    exact ⟨b, hb, fun d hd => (hball d hd).1⟩
  · intro chunks
    obtain ⟨b, hb, hball⟩ := runChunks_emits ollamaStep_wf chunks () []
    exact ⟨b, hb, fun d hd => (hball d hd).1⟩
  · intro chunks
    obtain ⟨b, hb, hball⟩ := runChunks_emits geminiStep_clean chunks () []
    exact ⟨b, hb, fun d hd => (hball d hd).1⟩

/-- C3: feeding the SSE-framing stream parser the three newline-terminated
lines (two content chunks then the DONE sentinel) yields exactly the deltas
Hel, lo, then one terminal delta, in that order, with nothing after the
terminal one. -/
theorem claim_C3 :
    OpenRouterProvider.parseSSEStream
      [("data: \x7b\"choices\":[\x7b\"delta\":\x7b\"content\":\"Hel\"\x7d\x7d]\x7d\n").data,
       ("data: \x7b\"choices\":[\x7b\"delta\":\x7b\"content\":\"lo\"\x7d\x7d]\x7d\n").data,
       ("data: [DONE]\n").data] =
      [⟨("Hel").data, false⟩, ⟨("lo").data, false⟩, ⟨[], true⟩] := by
  decide

/-- C1 counterexample: with suppression enabled, the spec's split-delimiter
stream (content deltas arriving as the three fragments thi-open, hidden
text with the close, and the tail) is NOT reduced to the text outside the
block — the per-delta substring test never sees a complete opening
delimiter, so every fragment, including the hidden text, passes through
unchanged.  Moreover text before an opening delimiter inside the same delta
is dropped rather than preserved: a single delta carrying text, a complete
think block and a tail yields no content at all. -/
theorem claim_C1_counterexample :
    (MinimaxProvider.parseMinimaxStream false
      [("data: \x7b\"choices\":[\x7b\"delta\":\x7b\"content\":\"<thi\"\x7d\x7d]\x7d\n").data,
       ("data: \x7b\"choices\":[\x7b\"delta\":\x7b\"content\":\"nk>hidden</think>Vis\"\x7d\x7d]\x7d\n").data,
       ("data: \x7b\"choices\":[\x7b\"delta\":\x7b\"content\":\"ible\"\x7d\x7d]\x7d\n").data] ≠
      [⟨("Vis").data, false⟩, ⟨("ible").data, false⟩, ⟨[], true⟩]) ∧
    (MinimaxProvider.parseMinimaxStream false
      [("data: \x7b\"choices\":[\x7b\"delta\":\x7b\"content\":\"<thi\"\x7d\x7d]\x7d\n").data,
       ("data: \x7b\"choices\":[\x7b\"delta\":\x7b\"content\":\"nk>hidden</think>Vis\"\x7d\x7d]\x7d\n").data,
       ("data: \x7b\"choices\":[\x7b\"delta\":\x7b\"content\":\"ible\"\x7d\x7d]\x7d\n").data] =
      [⟨("<thi").data, false⟩, ⟨("nk>hidden</think>Vis").data, false⟩,
       ⟨("ible").data, false⟩, ⟨[], true⟩]) ∧
    (MinimaxProvider.parseMinimaxStream false
      [("data: \x7b\"choices\":[\x7b\"delta\":\x7b\"content\":\"Pre<think>hidden</think>Post\"\x7d\x7d]\x7d\n").data] =
      [⟨[], true⟩]) := by
  refine ⟨by decide, by decide, by decide⟩

/-- C1 (amended): the streaming suppression filter is stateful across delta
boundaries for delimiters that each arrive intact within a single delta:
the content deltas think-open with hidden text, further hidden text, the
closing delimiter followed by the visible prefix, and the visible tail
yield exactly the two visible fragments and then the terminal delta — the
hidden text is suppressed, text after the closing delimiter within its
delta is preserved, and the suppressed state persists across the
intermediate delta. -/
theorem claim_C1 :
    MinimaxProvider.parseMinimaxStream false
      [("data: \x7b\"choices\":[\x7b\"delta\":\x7b\"content\":\"<think>hidden\"\x7d\x7d]\x7d\n").data,
       ("data: \x7b\"choices\":[\x7b\"delta\":\x7b\"content\":\"still hidden\"\x7d\x7d]\x7d\n").data,
       ("data: \x7b\"choices\":[\x7b\"delta\":\x7b\"content\":\"</think>Vis\"\x7d\x7d]\x7d\n").data,
       ("data: \x7b\"choices\":[\x7b\"delta\":\x7b\"content\":\"ible\"\x7d\x7d]\x7d\n").data] =
      [⟨("Vis").data, false⟩, ⟨("ible").data, false⟩, ⟨[], true⟩] := by
  decide

/-- C10: for the four SSE-framed stream parsers every delta emitted with
the done flag clear has non-empty content — empty extracted content is
silently skipped — so only the single terminal delta may carry empty text;
the newline-delimited Ollama parser does not share this property: a
non-terminal line whose message content is empty is emitted as an
empty-content, non-terminal delta. -/
theorem claim_C10 :
    (∀ chunks, ∀ d ∈ OpenRouterProvider.parseSSEStream chunks,
      d.done = false → d.content ≠ []) ∧
    (∀ chunks, ∀ d ∈ OpenAICompatibleProvider.parseStream chunks,
      d.done = false → d.content ≠ []) ∧
    (∀ showThinking chunks,
      ∀ d ∈ MinimaxProvider.parseMinimaxStream showThinking chunks,
      d.done = false → d.content ≠ []) ∧
    (∀ chunks, ∀ d ∈ GoogleAIProvider.parseGeminiStream chunks,
      d.done = false → d.content ≠ []) ∧
    OllamaProvider.parseOllamaStream
      [("\x7b\"message\":\x7b\"content\":\"\"\x7d,\"done\":false\x7d\n").data] =
      [⟨[], false⟩, ⟨[], true⟩] := by
  refine ⟨?_, ?_, ?_, ?_, by decide⟩
  · exact fun chunks => nonterminal_content orStep_clean chunks ()
  · exact fun chunks => nonterminal_content ocStep_clean chunks ()
  · exact fun showThinking chunks =>
      nonterminal_content (mmStep_clean showThinking) chunks false
  · exact fun chunks => nonterminal_content geminiStep_clean chunks ()

/-- C10 witness: a concrete non-terminal delta of the aggregator's SSE
parser, whose content the theorem then shows non-empty. -/
theorem claim_C10_witness :
    (⟨("Hel").data, false⟩ : TokenDelta) ∈ OpenRouterProvider.parseSSEStream
      [("data: \x7b\"choices\":[\x7b\"delta\":\x7b\"content\":\"Hel\"\x7d\x7d]\x7d\n").data] ∧
    (("Hel").data : Str) ≠ [] := by
  refine ⟨by decide, ?_⟩
  exact claim_C10.1
    [("data: \x7b\"choices\":[\x7b\"delta\":\x7b\"content\":\"Hel\"\x7d\x7d]\x7d\n").data]
    ⟨("Hel").data, false⟩ (by decide) rfl

/-- Whether a modelled call raised (rejected) rather than returned. -/
def raised {ε α : Type} : Except ε α → Bool
  | .error _ => true
  | .ok _ => false

/-- C4 counterexample: a non-2xx handshake response that still carries a
body channel — exactly what a failed HTTP exchange delivers, since error
responses have bodies — is NOT rejected by the hosted-aggregator or
local-daemon adapters: both consult only the body and return a stream. -/
theorem claim_C4_counterexample :
    raised (OpenRouterProvider.chatStream ⟨401, [], some [], []⟩) = false ∧
    raised (OllamaProvider.chatStream ⟨401, [], some [], []⟩) = false ∧
    FetchResponse.isOk ⟨401, [], some [], []⟩ = false := by
  exact ⟨rfl, rfl, rfl⟩

/-- C4 (amended): every adapter's chatStream raises before returning the
sequence when the response carries no body channel; the MiniMax, generic
OpenAI-compatible and Gemini-style adapters additionally raise on every
non-2xx handshake status, but the hosted-aggregator and local-daemon
adapters consult only the body, so for them a non-2xx handshake with a body
still returns a stream. -/
theorem claim_C4 :
    (∀ r : FetchResponse, r.body = none →
      raised (OpenRouterProvider.chatStream r) = true ∧
      raised (OllamaProvider.chatStream r) = true ∧
      (∀ showThinking, raised (MinimaxProvider.chatStream showThinking r) = true) ∧
      raised (OpenAICompatibleProvider.chatStream r) = true ∧
      raised (GoogleAIProvider.chatStream r) = true) ∧
    (∀ r : FetchResponse, r.isOk = false →
      (∀ showThinking, raised (MinimaxProvider.chatStream showThinking r) = true) ∧
      raised (OpenAICompatibleProvider.chatStream r) = true ∧
      raised (GoogleAIProvider.chatStream r) = true) := by
  constructor
  · intro r hb
    refine ⟨?_, ?_, ?_, ?_, ?_⟩
    · simp [OpenRouterProvider.chatStream, hb, raised]
    · simp [OllamaProvider.chatStream, hb, raised]
    · intro showThinking
      by_cases hok : r.isOk <;>
        simp [MinimaxProvider.chatStream, hb, hok, raised]
    · by_cases hok : r.isOk <;>
        simp [OpenAICompatibleProvider.chatStream, hb, hok, raised]
    · by_cases hok : r.isOk <;>
        simp [GoogleAIProvider.chatStream, hb, hok, raised]
  · intro r hok
    refine ⟨?_, ?_, ?_⟩
    · intro showThinking
      simp [MinimaxProvider.chatStream, hok, raised]
    · simp [OpenAICompatibleProvider.chatStream, hok, raised]
    · simp [GoogleAIProvider.chatStream, hok, raised]

/-- C4 witness: a concrete bodiless 2xx response is rejected by all five
adapters, and a concrete non-2xx response is rejected by the three
status-checking adapters. -/
theorem claim_C4_witness :
    raised (OpenRouterProvider.chatStream ⟨200, [], none, []⟩) = true ∧
    raised (OllamaProvider.chatStream ⟨200, [], none, []⟩) = true ∧
    raised (MinimaxProvider.chatStream false ⟨200, [], none, []⟩) = true ∧
    raised (OpenAICompatibleProvider.chatStream ⟨200, [], none, []⟩) = true ∧
    raised (GoogleAIProvider.chatStream ⟨200, [], none, []⟩) = true ∧
    raised (MinimaxProvider.chatStream false ⟨500, [], some [], []⟩) = true := by
  have h1 := claim_C4.1 ⟨200, [], none, []⟩ rfl
  have h2 := claim_C4.2 ⟨500, [], some [], []⟩ rfl
  exact ⟨h1.1, h1.2.1, h1.2.2.1 false, h1.2.2.2.1, h1.2.2.2.2, h2.1 false⟩

/-- The normalization of the configured base URL exactly as the
specification sentence describes it: strip all trailing slashes; then, if
the URL lacks the chat-completions path, append the completions suffix when
it ends in the v1 segment, append nothing when it already ends in a
completions segment, and append the full v1-chat-completions path
otherwise. -/
def specNormalizeBaseUrl (u : Str) : Str :=
  let s := dropTrailingSlashes u
  if isSubstring ("/chat/completions").data s then s
  else if ("/v1").data.isSuffixOf s then s ++ ("/chat/completions").data
  else if ("/completions").data.isSuffixOf s then s
  else s ++ ("/v1/chat/completions").data

/-- C6: the generic adapter's constructor normalizes the configured base
URL exactly as specified, and every subsequent request is issued against
the normalized URL. -/
theorem claim_C6 :
    ∀ u a m, OpenAICompatibleProvider.requestTarget
      (OpenAICompatibleProvider.construct u a m) = specNormalizeBaseUrl u := by
  intro u a m
  simp only [OpenAICompatibleProvider.requestTarget, OpenAICompatibleProvider.construct,
    OpenAICompatibleProvider.normalizeBaseUrl, specNormalizeBaseUrl]
  by_cases h1 : isSubstring ("/chat/completions").data (dropTrailingSlashes u) = true <;>
    by_cases h2 : ("/v1").data.isSuffixOf (dropTrailingSlashes u) = true <;>
      by_cases h3 : ("/completions").data.isSuffixOf (dropTrailingSlashes u) = true <;>
        simp [h1, h2, h3]

/-- JS Map set followed by get at the same key resolves to the new value. -/
theorem mapGet_mapSet (m : Registry) (k : Str) (v : RegProvider) :
    mapGet (mapSet m k v) k = some v := by
  induction m with
  | nil => simp [mapSet, mapGet]
  | cons kv rest ih =>
    obtain ⟨k2, v2⟩ := kv
    by_cases h : k2 = k <;> simp [mapSet, mapGet, h, ih]

/-- C9: registering two providers under the same identifier leaves exactly
the second resolvable via get, and after clear, get for every identifier —
in particular every previously registered one — returns the explicit
not-found result without throwing. -/
theorem claim_C9 :
    (∀ (m : Registry) (p1 p2 : RegProvider), p1.id = p2.id →
      ProviderRegistry.get
        (ProviderRegistry.register (ProviderRegistry.register m p1) p2) p1.id =
        some p2) ∧
    (∀ (m : Registry) (i : Str), ProviderRegistry.get (ProviderRegistry.clear m) i = none) := by
  constructor
  · intro m p1 p2 h
    simp only [ProviderRegistry.register, ProviderRegistry.get, h]
    exact mapGet_mapSet _ _ _
  · intro m i
    rfl

/-- C9 witness: two concrete providers sharing an identifier — after both
registrations only the second resolves. -/
theorem claim_C9_witness :
    ProviderRegistry.get
      (ProviderRegistry.register
        (ProviderRegistry.register [] ⟨("ollama").data, ("Ollama (Local)").data⟩)
        ⟨("ollama").data, ("Ollama (fresh)").data⟩) ("ollama").data =
      some ⟨("ollama").data, ("Ollama (fresh)").data⟩ :=
  claim_C9.1 [] ⟨("ollama").data, ("Ollama (Local)").data⟩
    ⟨("ollama").data, ("Ollama (fresh)").data⟩ rfl

/-- The nonempty-string-or-fallback selection yields a non-empty string
whenever the fallback is non-empty. -/
theorem strFieldOr_ne_nil (o : Option Json) (fb : Str) (h : fb ≠ []) :
    strFieldOr o fb ≠ [] := by
  unfold strFieldOr
  split
  · split
    · exact h
    · assumption
  · exact h

/-- C5: none of the five adapters' validate can propagate an exception —
every transport outcome produces a structured result — and on the outcome
an invalid credential produces for each adapter (a thrown 401 for the
default-throwing aggregator and MiniMax adapters, a connection failure for
the local daemon, a resolved 400 for the Gemini-style adapter, a resolved
401 for the generic adapter), the result is invalid together with a
non-empty error string.  For the aggregator, the thrown error must carry a
non-empty message or non-empty string form, as JS runtime errors do. -/
theorem claim_C5 :
    (∀ o, ∃ v, OpenRouterProvider.validate o = .ok v) ∧
    (∀ o, ∃ v, MinimaxProvider.validate o = .ok v) ∧
    (∀ u o, ∃ v, OllamaProvider.validate u o = .ok v) ∧
    (∀ o, ∃ v, GoogleAIProvider.validate o = .ok v) ∧
    (∀ c o, ∃ v, OpenAICompatibleProvider.validate c o = .ok v) ∧
    (∀ e : JsErr, e.message ≠ [] ∨ e.asString ≠ [] →
      ∃ s, OpenRouterProvider.validate (.thrown e) = .ok ⟨false, some s⟩ ∧ s ≠ []) ∧
    (∀ e : JsErr, e.status = some 401 →
      ∃ s, MinimaxProvider.validate (.thrown e) = .ok ⟨false, some s⟩ ∧ s ≠ []) ∧
    (∀ u (e : JsErr),
      ∃ s, OllamaProvider.validate u (.thrown e) = .ok ⟨false, some s⟩ ∧ s ≠ []) ∧
    (∀ r : UrlResponse, r.status = 400 →
      ∃ s, GoogleAIProvider.validate (.resolved r) = .ok ⟨false, some s⟩ ∧ s ≠ []) ∧
    (∀ c (r : UrlResponse), r.status = 401 →
      ∃ s, OpenAICompatibleProvider.validate c (.resolved r) =
        .ok ⟨false, some s⟩ ∧ s ≠ []) := by
  refine ⟨?_, ?_, ?_, ?_, ?_, ?_, ?_, ?_, ?_, ?_⟩
  · intro o
    cases o with
    | resolved r => exact ⟨_, rfl⟩
    | thrown e => exact ⟨_, rfl⟩
  · intro o
    cases o with
    | resolved r => exact ⟨_, rfl⟩
    | thrown e =>
      simp only [MinimaxProvider.validate, MinimaxProvider.validateTry]
      split
      · exact ⟨_, rfl⟩
      · exact ⟨_, rfl⟩
  · intro u o
    cases o with
    | resolved r => exact ⟨_, rfl⟩
    | thrown e => exact ⟨_, rfl⟩
  · intro o
    cases o with
    | resolved r =>
      simp only [GoogleAIProvider.validate, GoogleAIProvider.validateTry]
      split
      · exact ⟨_, rfl⟩
      · exact ⟨_, rfl⟩
    | thrown e => exact ⟨_, rfl⟩
  · intro c o
    simp only [OpenAICompatibleProvider.validate]
    split
    · exact ⟨_, rfl⟩
    · split
      · exact ⟨_, rfl⟩
      · cases o with
        | resolved r =>
          simp only [OpenAICompatibleProvider.validateTry]
          split
          · exact ⟨_, rfl⟩
          · exact ⟨_, rfl⟩
        | thrown e => exact ⟨_, rfl⟩
  · intro e h
    refine ⟨jsOrStr e.message e.asString, rfl, ?_⟩
    unfold jsOrStr
    rcases h with hm | ha
    · simp [hm]
    · split
      · exact ha
      · assumption
  · intro e h
    simp only [MinimaxProvider.validate, MinimaxProvider.validateTry, h]
    exact ⟨("Invalid API key").data, by simp, by simp⟩
  · intro u e
    exact ⟨_, rfl, by simp⟩
  · intro r h
    simp only [GoogleAIProvider.validate, GoogleAIProvider.validateTry, h]
    exact ⟨("Invalid API key format").data, by simp, by simp⟩
  · intro c r h
    simp only [OpenAICompatibleProvider.validate]
    split
    · exact ⟨_, rfl, by simp⟩
    · split
      · exact ⟨_, rfl, by simp⟩
      · simp only [OpenAICompatibleProvider.validateTry, h]
        have hbase : (("HTTP ").data ++ (toString (401 : Nat)).data : Str) ≠ [] := by
          simp
        rw [if_neg (by decide)]
        refine ⟨_, rfl, ?_⟩
        split
        · exact strFieldOr_ne_nil _ _ (strFieldOr_ne_nil _ _ hbase)
        · exact hbase

/-- C5 witness: concrete invalid-credential outcomes for each adapter,
with the resulting invalid results and non-empty error strings. -/
theorem claim_C5_witness :
    (∃ s, OpenRouterProvider.validate
      (.thrown ⟨some 401, ("Request failed, status 401").data,
        ("Error: Request failed, status 401").data⟩) = .ok ⟨false, some s⟩ ∧ s ≠ []) ∧
    (∃ s, MinimaxProvider.validate (.thrown ⟨some 401, [], []⟩) =
      .ok ⟨false, some s⟩ ∧ s ≠ []) ∧
    (∃ s, OllamaProvider.validate ("http://localhost:11434").data
      (.thrown ⟨none, ("net::ERR_CONNECTION_REFUSED").data, []⟩) =
      .ok ⟨false, some s⟩ ∧ s ≠ []) ∧
    (∃ s, GoogleAIProvider.validate (.resolved ⟨400, none, []⟩) =
      .ok ⟨false, some s⟩ ∧ s ≠ []) ∧
    (∃ s, OpenAICompatibleProvider.validate
      (OpenAICompatibleProvider.construct ("https://api.example.com/v1").data
        ("key").data ("model-a").data) (.resolved ⟨401, none, []⟩) =
      .ok ⟨false, some s⟩ ∧ s ≠ []) := by
  refine ⟨?_, ?_, ?_, ?_, ?_⟩
  · exact claim_C5.2.2.2.2.2.1 _ (by simp)
  · exact claim_C5.2.2.2.2.2.2.1 _ rfl
  · exact claim_C5.2.2.2.2.2.2.2.1 _ _
  · exact claim_C5.2.2.2.2.2.2.2.2.1 _ rfl
  · exact claim_C5.2.2.2.2.2.2.2.2.2 _ _ rfl

/-- C7: on a success-status response whose body carries the safety-block
indicator in the prompt-feedback field, the Gemini-style adapter's chat
raises the distinct blocked-content error naming the block reason — before
the candidate text is even extracted, so an empty text field can never be
treated as a successful result in the blocked case. -/
theorem claim_C7 :
    ∀ (data : Json) (respText : Str) (v : Json),
      oGet (jGet data ("promptFeedback").data) ("blockReason").data = some v →
      jsTruthy v = true →
      GoogleAIProvider.chat 200 data respText =
        .error (("Content blocked: ").data ++ jsDisplay v) := by
  intro data respText v hv htruthy
  simp only [GoogleAIProvider.chat, hv]
  rw [if_neg (by decide)]
  rw [if_pos]
  · simp
  · simp [jsTruthyOpt, htruthy]

/-- C7 witness: a concrete 200 response carrying a safety block reason is
rejected with the blocked-content error. -/
theorem claim_C7_witness :
    GoogleAIProvider.chat 200
      (Json.obj [(("promptFeedback").data,
        Json.obj [(("blockReason").data, Json.str ("SAFETY").data)])]) [] =
      .error (("Content blocked: ").data ++ ("SAFETY").data) :=
  claim_C7 _ [] (Json.str ("SAFETY").data) rfl rfl

/-- C8 counterexample: the generic OpenAI-compatible adapter's chat, given
a success envelope whose first choice carries empty message content,
returns a ChatResponse with empty text on a non-error path — no failure is
raised. -/
theorem claim_C8_counterexample :
    OpenAICompatibleProvider.chat
      ((jsonParse ("\x7b\"choices\":[\x7b\"message\":\x7b\"content\":\"\"\x7d\x7d]\x7d").data).getD
        Json.null) = .ok ⟨[], none⟩ := by
  rfl

/-- C8 (amended): chat can return a ChatResponse whose text is empty on a
non-error path (an empty or missing completion in a success envelope is
returned as empty text); what does hold is that a provider error envelope
surfaces as a raised failure rather than as a ChatResponse. -/
theorem claim_C8 :
    ∀ data : Json, jsTruthyOpt (jGet data ("error").data) = true →
      ∃ msg, OpenAICompatibleProvider.chat data = .error msg := by
  intro data h
  simp only [OpenAICompatibleProvider.chat, h, if_true]
  exact ⟨_, rfl⟩

/-- C8 witness: a concrete error envelope is raised by chat. -/
theorem claim_C8_witness :
    ∃ msg, OpenAICompatibleProvider.chat
      (Json.obj [(("error").data,
        Json.obj [(("message").data, Json.str ("model not found").data)])]) =
      .error msg :=
  claim_C8 _ rfl
